import Mathlib

set_option linter.unusedVariables false

/-!
Verification of the media-conversion backend (FastAPI service).

This file shallowly embeds the parts of the repository that the checked
claims are about:

* the task registry and background runner of
  `app/api/routes/transcribe_video.py` (submit / background run / poll);
* the processing service of `app/services/transcription_service.py`
  (`transcribe`, `translate`, `summarize`, `_process_with_gemini_direct`,
  `_generate_summary_with_gemini`, `_is_supported_file`);
* the spell-correction service of `app/services/spell_correct.py` and its
  route `app/api/routes/spell_correct.py`;
* the image-to-text route (`app/api/routes/image_to_text.py`) together with
  `ImageToTextService.extract_text_from_image`;
* the PDF-converter route (`app/api/routes/pdf_converter.py`) together with
  `PdfConverterService` and the `PdfToMarkdownResponse` schema.

External providers (the generative-language model, the OCR engines) are
abstracted as oracles: a function from a call index to either a returned
text or a raised error message.  Python dictionaries are embedded as
association lists in insertion order, Python tuples as lists of values, and
raised exceptions as `Except.error` carrying the exception's string
representation.
-/

namespace Backend

/-! ## Python string primitives -/

/-- The whitespace characters recognised by Python's `str.strip()` on
ASCII input: space, tab, newline, carriage return, vertical tab, form
feed. -/
def isPyWhitespace (c : Char) : Bool :=
  c = ' ' || c = '\t' || c = '\n' || c = '\r' || c = '\x0b' || c = '\x0c'

/-- Python `str.strip()`: remove leading and trailing whitespace. -/
def pyStrip (s : String) : String :=
  ⟨(s.data.dropWhile isPyWhitespace).reverse.dropWhile isPyWhitespace |>.reverse⟩

/-- Python `str.lower()` restricted to ASCII letters (the file extensions
compared against it are ASCII). -/
def pyLower (s : String) : String :=
  ⟨s.data.map Char.toLower⟩

/-- Membership of a substring, as Python's `in` operator on strings
(with a non-empty needle): `needle in hay` holds iff splitting `hay`
on `needle` produces more than one piece. -/
def pyInStr (needle hay : String) : Bool :=
  (hay.splitOn needle).length ≠ 1

/-- `os.path.splitext`: the extension begins at the last dot of the last
path component, provided some character of that component other than a
leading dot precedes it; otherwise the extension is empty.  Returns
(root, extension). -/
def splitext (p : String) : String × String :=
  let cs := p.data
  let base := (cs.reverse.takeWhile (· ≠ '/')).reverse
  let afterDots := base.dropWhile (· = '.')
  if afterDots.any (· = '.') then
    let ext := '.' :: (afterDots.reverse.takeWhile (· ≠ '.')).reverse
    (⟨cs.take (cs.length - ext.length)⟩, ⟨ext⟩)
  else
    (p, "")

/-! ## Python values and dictionaries -/

/-- A Python value as it appears in the request options and result
dictionaries of this service: strings, booleans, numeric literals (kept as
their source text; no claim inspects a numeric value), lists of strings,
and the empty list used for the `segments` field. -/
inductive PyVal where
  | str (s : String)
  | bool (b : Bool)
  | num (lit : String)
  | strlist (xs : List String)
  | emptylist
  | none
deriving DecidableEq, Repr

/-- A Python `dict` with string keys, in insertion order. -/
abbrev PyDict := List (String × PyVal)

/-- `d[k]` lookup / `d.get(k)` (keys in the dictionaries built by this
service are unique, so first match suffices). -/
def pyGet : PyDict → String → Option PyVal
  | [], _ => Option.none
  | (k', v) :: d, k => if k' = k then some v else pyGet d k

/-- `d.get(k, default)`. -/
def pyGetD (d : PyDict) (k : String) (dflt : PyVal) : PyVal :=
  (pyGet d k).getD dflt

/-- `k in d`. -/
def pyHasKey (d : PyDict) (k : String) : Bool :=
  (pyGet d k).isSome

/-- Python truthiness of an embedded value (numeric literals are truthy
unless they are literally `0`; no claim depends on a numeric option). -/
def pyTruthy : PyVal → Bool
  | .str s => s ≠ ""
  | .bool b => b
  | .num lit => lit ≠ "0"
  | .strlist xs => xs ≠ []
  | .emptylist => false
  | .none => false

/-- The string content of a value, as interpolating it into an f-string
would render scalars (only applied to string-valued options here). -/
def pyValStr : PyVal → String
  | .str s => s
  | .bool b => if b then "True" else "False"
  | .num lit => lit
  | .strlist _ => ""
  | .emptylist => ""
  | .none => "None"

/-! ## Provider oracle

The generative-language provider is modelled as an oracle mapping the
index of the call (within the operation under study) to its outcome:
`.ok text` for a returned response text, `.error e` for a raised
exception with message `e`.  Every provider call consumes one index, so
the final index count is the number of provider calls made. -/

abbrev Oracle := Nat → Except String String

/-! ## Spell correction — `app/services/spell_correct.py`

`GeminiSpellCorrectService.correct_text` returns the input unchanged when
it strips to the empty string; otherwise it makes exactly one provider
call and returns the stripped response text, wrapping a provider error
into an HTTP 500.  The second component of the result records whether the
provider was called. -/

/-- The correction prompt built around the input text. -/
def spellCorrectPrompt (text : String) : String :=
  "\n        Please correct ONLY spelling and grammatical errors in the following text. \n        Do not change the meaning, style, tone, vocabulary level, or any other aspects of the text.\n        Do not add or remove information.\n        Do not rewrite sentences for clarity or any other reason unless they contain grammatical errors.\n        Only fix objective spelling mistakes and grammatical errors.\n        The end-user is dyslexic and needs the text to be corrected without changing the meaning, style, tone, or vocabulary level.\n        The model should not rewrite sentences for clarity or any other reason unless they contain grammatical errors.\n        \n        Here is the text to correct:\n        \n        " ++ text ++ "\n        \n        Return ONLY the corrected text with no explanations, comments, or other additions.\n        "

/-- An HTTP error: status code and detail string. -/
structure HTTPError where
  status : Nat
  detail : String
deriving DecidableEq, Repr

/-- `GeminiSpellCorrectService.correct_text`.  `provider` is
`self.model.generate_content_async`; the Boolean records whether it was
invoked. -/
def correct_text (provider : String → Except String String) (text : String) :
    Except HTTPError String × Bool :=
  if pyStrip text = "" then
    (.ok text, false)
  else
    match provider (spellCorrectPrompt text) with
    | .ok response => (.ok (pyStrip response), true)
    | .error e => (.error ⟨500, "Gemini API error: " ++ e⟩, true)

/-- The `/spell-correct` response schema. -/
structure TextCorrectionResponse where
  corrected_text : String
  original_text : String
deriving DecidableEq, Repr

/-- The `POST /spell-correct` route handler (`correct_text` in
`app/api/routes/spell_correct.py`). -/
def spellCorrectRoute (provider : String → Except String String)
    (text : String) : Except HTTPError TextCorrectionResponse × Bool :=
  match correct_text provider text with
  | (.ok corrected, called) =>
      (.ok ⟨corrected, text⟩, called)
  | (.error e, called) => (.error e, called)

/-! ## Processing service — `app/services/transcription_service.py`

`ProcessingService` holds a Gemini model handle when a project id was
available at construction (`self.gemini_model`); every provider call goes
through the oracle and consumes one call index. -/

/-- The service state: whether `self.gemini_model` was initialised. -/
structure ProcessingService where
  geminiModel : Bool
deriving DecidableEq, Repr

/-- The media formats accepted by `_is_supported_file`. -/
def supported_formats : List String :=
  [".mp4", ".avi", ".mov", ".mkv", ".webm", ".flv", ".m4v",
   ".mp3", ".wav", ".aac", ".ogg", ".flac", ".m4a"]

/-- `ProcessingService._is_supported_file`. -/
def _is_supported_file (file_path : String) : Bool :=
  supported_formats.contains (pyLower (splitext file_path).2)

/-- `ProcessingService._process_with_gemini_direct`: one provider call;
a provider exception is re-raised wrapped in a fixed prefix. -/
def _process_with_gemini_direct (svc : ProcessingService) (ora : Oracle)
    (n : Nat) (file_path prompt : String) : Except String String × Nat :=
  if ¬ svc.geminiModel then
    (.error "Gemini model not initialized. Please provide project_id during initialization.", n)
  else
    match ora n with
    | .ok text => (.ok text, n + 1)
    | .error e => (.error ("Gemini direct media processing error: " ++ e), n + 1)

/-- The fixed transcription prompt of `ProcessingService.transcribe`. -/
def transcribePrompt : String :=
  "Please provide a complete and accurate transcription of all spoken content in this audio/video file. \n            \n            Format the response as follows:\n            - Include all dialogue and speech\n            - Use proper punctuation and paragraph breaks\n            - Indicate speaker changes if multiple speakers are present (e.g., Speaker 1:, Speaker 2:)\n            - Do not include descriptions of visual elements or background sounds, only transcribe the spoken words\n            - If there are multiple languages, transcribe each in their original language\n            \n            Transcription:"

/-- The error dictionary `transcribe`/`translate` return (without raising)
for a file whose extension is not a supported media format. -/
def unsupportedFormatDict : PyDict :=
  [("error", .str ("Unsupported file format. Supported formats: "
      ++ String.intercalate ", " supported_formats))]

/-- `ProcessingService.transcribe`.  Returns `.ok` with the result
dictionary, or `.error` with the raised exception's message; the second
component is the provider-call index after the run. -/
def transcribe (svc : ProcessingService) (ora : Oracle) (n : Nat)
    (file_path : String) (model_size : String) (options : PyDict) :
    Except String PyDict × Nat :=
  if ¬ svc.geminiModel then
    (.error "Gemini model not initialized. Please provide project_id during initialization.", n)
  else if ¬ _is_supported_file file_path then
    (.ok unsupportedFormatDict, n)
  else
    match _process_with_gemini_direct svc ora n file_path transcribePrompt with
    | (.ok transcript_text, n') =>
        let response : PyDict :=
          [("transcript", .str (pyStrip transcript_text)),
           ("segments", .emptylist),
           ("language", pyGetD options "language" (.str "auto-detected")),
           ("method", .str "gemini_direct")]
        let response :=
          if pyTruthy (pyGetD options "save_transcript" (.bool false)) then
            response ++ [("transcript_path", .str ((splitext file_path).1 ++ "_transcript.txt"))]
          else response
        (.ok response, n')
    | (.error e, n') => (.error ("Gemini transcription error: " ++ e), n')

/-- The translation prompt of `ProcessingService.translate`. -/
def translatePrompt (target_language : String) : String :=
  "Please provide a complete translation of all spoken content in this audio/video file to " ++ target_language ++ ".\n            \n            Requirements:\n            - Translate all dialogue and speech accurately\n            - Maintain the meaning and context\n            - Use natural, fluent " ++ target_language ++ "\n            - Use proper punctuation and paragraph breaks\n            - Indicate speaker changes if multiple speakers are present (e.g., Speaker 1:, Speaker 2:)\n            - Do not translate background sounds or visual descriptions, only spoken words\n            \n            Translation:"

/-- `ProcessingService.translate`. -/
def translate (svc : ProcessingService) (ora : Oracle) (n : Nat)
    (file_path : String) (model_size : String) (options : PyDict) :
    Except String PyDict × Nat :=
  if ¬ svc.geminiModel then
    (.error "Gemini model not initialized. Please provide project_id during initialization.", n)
  else if ¬ _is_supported_file file_path then
    (.ok unsupportedFormatDict, n)
  else
    let target_language := pyValStr (pyGetD options "target_language" (.str "English"))
    match _process_with_gemini_direct svc ora n file_path (translatePrompt target_language) with
    | (.ok translation_text, n') =>
        (.ok [("transcript", .str (pyStrip translation_text)),
              ("translation", .str (pyStrip translation_text)),
              ("target_language", .str target_language),
              ("segments", .emptylist),
              ("method", .str "gemini_direct")], n')
    | (.error e, n') => (.error ("Gemini translation error: " ++ e), n')

/-- The base prompts of `_generate_summary_with_gemini`, keyed by summary
type with `general` as the default. -/
def summaryBasePrompt (summary_type : String) : String :=
  if summary_type = "general" then
    "Please provide a concise and comprehensive summary of the following transcript:"
  else if summary_type = "bullet_points" then
    "Please summarize the following transcript in bullet points, highlighting the main topics and key information:"
  else if summary_type = "key_insights" then
    "Please extract the key insights, main arguments, and important conclusions from the following transcript:"
  else if summary_type = "executive" then
    "Please provide an executive summary of the following transcript, focusing on the main points that would be relevant for decision-makers:"
  else if summary_type = "detailed" then
    "Please provide a detailed summary of the following transcript, preserving important context and nuances:"
  else if summary_type = "action_items" then
    "Please identify and summarize any action items, decisions, or next steps mentioned in the following transcript:"
  else
    "Please provide a concise and comprehensive summary of the following transcript:"

/-- The optional extra instructions appended to a summary prompt, from the
`max_length`, `focus_areas` and `target_audience` options. -/
def additionalInstructions (options : PyDict) : List String :=
  (if pyTruthy (pyGetD options "max_length" .none) then
     ["Keep the summary under " ++ pyValStr (pyGetD options "max_length" .none) ++ " words."]
   else []) ++
  (if pyTruthy (pyGetD options "focus_areas" .none) then
     (match pyGetD options "focus_areas" .none with
      | .strlist xs => ["Focus particularly on these areas: " ++ String.intercalate ", " xs]
      | _ => [])
   else []) ++
  (if pyTruthy (pyGetD options "target_audience" .none) then
     ["Tailor the summary for: " ++ pyValStr (pyGetD options "target_audience" .none)]
   else [])

/-- Appending the joined extra instructions, as both summary paths do. -/
def withInstructions (base : String) (options : PyDict) : String :=
  let instrs := additionalInstructions options
  if instrs = [] then base else base ++ " " ++ String.intercalate " " instrs

/-- `ProcessingService._generate_summary_with_gemini`: one provider call
on the transcript text. -/
def _generate_summary_with_gemini (svc : ProcessingService) (ora : Oracle)
    (n : Nat) (transcript : String) (summary_type : String) (options : PyDict) :
    Except String String × Nat :=
  if ¬ svc.geminiModel then
    (.error "Gemini model not initialized. Please provide project_id during initialization.", n)
  else
    let full_prompt :=
      withInstructions (summaryBasePrompt summary_type) options
        ++ "\n\nTranscript:\n" ++ transcript
    match ora n with
    | .ok text => (.ok text, n + 1)
    | .error e => (.error ("Gemini summarization error: " ++ e), n + 1)

/-- The base prompts of the direct summarization path of
`ProcessingService.summarize`, keyed by summary type with `general` as the
default. -/
def summaryDirectBasePrompt (summary_type : String) : String :=
  if summary_type = "general" then
    "Please watch this video and provide both a complete transcription and a concise comprehensive summary."
  else if summary_type = "bullet_points" then
    "Please watch this video and provide both a complete transcription and a bullet-point summary highlighting the main topics."
  else if summary_type = "key_insights" then
    "Please watch this video and provide both a complete transcription and extract the key insights and important conclusions."
  else if summary_type = "executive" then
    "Please watch this video and provide both a complete transcription and an executive summary for decision-makers."
  else if summary_type = "detailed" then
    "Please watch this video and provide both a complete transcription and a detailed summary preserving important context."
  else if summary_type = "action_items" then
    "Please watch this video and provide both a complete transcription and identify any action items or next steps."
  else
    "Please watch this video and provide both a complete transcription and a concise comprehensive summary."

/-- The formatting instructions appended to the direct summarization
prompt. -/
def summaryFormatSuffix : String :=
  "\n\nPlease format your response as follows:\nTRANSCRIPTION:\n[Complete transcription here]\n\nSUMMARY:\n[Summary here]"

/-- The line-scanning fallback parse of the direct-path response: lines
are routed into transcript or summary sections, switching on lines that
contain `SUMMARY` or `TRANSCRIPTION` (case-insensitively), starting in the
transcript section; the section-marker lines are dropped. -/
def summarizeFallbackParse (result_text : String) : String × String :=
  let lines := result_text.splitOn "\n"
  let acc := lines.foldl
    (fun (acc : List String × List String × Bool) line =>
      if pyInStr "SUMMARY" line.toUpper then (acc.1, acc.2.1, true)
      else if pyInStr "TRANSCRIPTION" line.toUpper then (acc.1, acc.2.1, false)
      else if acc.2.2 then (acc.1, acc.2.1 ++ [line], true)
      else (acc.1 ++ [line], acc.2.1, false))
    ([], [], false)
  (pyStrip (String.intercalate "\n" acc.1),
   pyStrip (String.intercalate "\n" acc.2.1))

/-- Splitting the direct-path response into transcription and summary:
split on `SUMMARY:`; when that gives exactly two parts, the first (with
`TRANSCRIPTION:` removed) is the transcript and the second the summary,
both stripped; otherwise the line-scanning fallback is used. -/
def summarizeParse (result_text : String) : String × String :=
  match result_text.splitOn "SUMMARY:" with
  | [t, s] => (pyStrip (t.replace "TRANSCRIPTION:" ""), pyStrip s)
  | _ => summarizeFallbackParse result_text

/-- `ProcessingService.summarize`.  With `use_gemini_direct` truthy
(default) and an initialised model it first attempts one direct provider
call; if that call raises, the exception is caught and the method falls
back to `transcribe` followed by `_generate_summary_with_gemini`, each a
further provider call. -/
def summarize (svc : ProcessingService) (ora : Oracle) (n : Nat)
    (file_path : String) (model_size : String) (options : PyDict) :
    Except String PyDict × Nat :=
  let use_gemini_direct := pyGetD options "use_gemini_direct" (.bool true)
  let summary_type := pyValStr (pyGetD options "summary_type" (.str "general"))
  let directAttempt :=
    if pyTruthy use_gemini_direct ∧ svc.geminiModel then
      let full_prompt :=
        withInstructions (summaryDirectBasePrompt summary_type) options
          ++ summaryFormatSuffix
      some (_process_with_gemini_direct svc ora n file_path full_prompt)
    else
      Option.none
  match directAttempt with
  | some (.ok result_text, n') =>
      let parsed := summarizeParse result_text
      let response : PyDict :=
        [("transcript", .str parsed.1),
         ("summary", .str parsed.2),
         ("summary_type", .str summary_type),
         ("language", .str "auto-detected"),
         ("segments", .emptylist),
         ("method", .str "gemini_direct")]
      let response :=
        if pyTruthy (pyGetD options "save_summary" (.bool false)) then
          response ++ [("summary_path",
            .str ((splitext file_path).1 ++ "_summary_" ++ summary_type ++ ".txt"))]
        else response
      (.ok response, n')
  | _ =>
      -- Either the direct path was skipped, or its provider call raised
      -- and the exception was caught (printed, not recorded).
      let n₁ := match directAttempt with
        | some (_, n') => n'
        | Option.none => n
      match transcribe svc ora n₁ file_path model_size options with
      | (.error e, n₂) => (.error e, n₂)
      | (.ok transcription_result, n₂) =>
        if pyHasKey transcription_result "error" then
          (.ok transcription_result, n₂)
        else
          let transcriptText := pyValStr (pyGetD transcription_result "transcript" .none)
          match _generate_summary_with_gemini svc ora n₂ transcriptText summary_type options with
          | (.ok summary, n₃) =>
              let response : PyDict :=
                [("transcript", .str transcriptText),
                 ("summary", .str summary),
                 ("summary_type", .str summary_type),
                 ("language", (pyGet transcription_result "language").getD .none),
                 ("segments", pyGetD transcription_result "segments" .emptylist),
                 ("method", .str (pyValStr (pyGetD transcription_result "method" (.str "whisper"))
                     ++ "_+_gemini_summary"))]
              let response :=
                if pyTruthy (pyGetD options "save_summary" (.bool false)) then
                  response ++ [("summary_path",
                    .str ((splitext file_path).1 ++ "_summary_" ++ summary_type ++ ".txt"))]
                else response
              (.ok response, n₃)
          | (.error e, n₃) =>
              (.ok [("transcript", .str transcriptText),
                    ("error", .str ("Summarization failed: " ++ e)),
                    ("language", (pyGet transcription_result "language").getD .none),
                    ("segments", pyGetD transcription_result "segments" .emptylist),
                    ("method", pyGetD transcription_result "method" (.str "whisper"))], n₃)

/-! ## Association lists as Python dictionaries -/

/-- Lookup of a string key in an association list (first match; the
registries built here keep keys unique). -/
def alookup {α : Type} : List (String × α) → String → Option α
  | [], _ => Option.none
  | (k', v) :: d, k => if k' = k then some v else alookup d k

/-- Python dictionary assignment `d[k] = v`: replace the value in place
when the key is present, append otherwise. -/
def aset {α : Type} : List (String × α) → String → α → List (String × α)
  | [], k, v => [(k, v)]
  | (k', v') :: d, k, v =>
      if k' = k then (k, v) :: d else (k', v') :: aset d k v

/-- In-place mutation of the entry stored under a key (as the background
runner mutates the nested task dictionary). -/
def aupdate {α : Type} : List (String × α) → String → (α → α) → List (String × α)
  | [], _, _ => []
  | (k', v) :: d, k, f =>
      if k' = k then (k', f v) :: aupdate d k f else (k', v) :: aupdate d k f

/-! ## Task registry and routes — `app/api/routes/transcribe_video.py` -/

/-- The `ProcessingType` enumeration. -/
inductive ProcessingType where
  | transcription
  | translation
  | summarization
deriving DecidableEq, Repr

/-- The `.value` string of each enumeration member. -/
def ProcessingType.value : ProcessingType → String
  | .transcription => "transcription"
  | .translation => "translation"
  | .summarization => "summarization"

/-- The coercion of the `process_type` path parameter to the
`ProcessingType` enumeration, as the framework performs it before the
handler runs: an exact match against the member values, anything else
being rejected with a validation error. -/
def parseProcessingType (s : String) : Option ProcessingType :=
  if s = "transcription" then some .transcription
  else if s = "translation" then some .translation
  else if s = "summarization" then some .summarization
  else Option.none

/-- One entry of the in-memory `tasks` dictionary. -/
structure Task where
  status : String
  file_path : String
  process_type : String
  result : Option PyDict := Option.none
  error : Option String := Option.none
deriving DecidableEq, Repr

/-- A background job as scheduled by `background_tasks.add_task`. -/
structure Job where
  task_id : String
  file_path : String
  process_type : String
  model_size : String
  options : PyDict
deriving DecidableEq, Repr

/-- The process state: the `tasks` registry plus the queue of scheduled
background jobs that have not yet run. -/
structure Sys where
  tasks : List (String × Task)
  pending : List Job
deriving DecidableEq, Repr

/-- The initial state: empty registry, nothing scheduled. -/
def Sys.init : Sys := ⟨[], []⟩

/-- The `ProcessingResponse` schema returned by submission. -/
structure ProcessingResponse where
  task_id : String
  message : String
  file_path : String
deriving DecidableEq, Repr

/-- The `ProcessingResult` schema returned by polling. -/
structure ProcessingResult where
  task_id : String
  status : String
  result : Option PyDict := Option.none
  error : Option String := Option.none
deriving DecidableEq, Repr

/-- The body of the `process_file` handler after validation: save the
upload under a path derived from the process type and the generated task
id, insert a `processing` registry entry, schedule the background job,
and return the response immediately.  `task_id` stands for the freshly
generated `uuid4` and `filename` for `file.filename`. -/
def process_file (s : Sys) (process_type : ProcessingType)
    (task_id filename model_size : String) (options : PyDict) :
    ProcessingResponse × Sys :=
  let upload_dir := "uploaded_" ++ process_type.value
  let file_extension := (splitext filename).2
  let file_location := upload_dir ++ "/" ++ task_id ++ file_extension
  let task : Task :=
    { status := "processing", file_path := file_location,
      process_type := process_type.value }
  let job : Job :=
    ⟨task_id, file_location, process_type.value, model_size, options⟩
  (⟨task_id, "File uploaded and " ++ process_type.value ++ " task started",
    file_location⟩,
   ⟨aset s.tasks task_id task, s.pending ++ [job]⟩)

/-- The `POST /process/...` endpoint seen from the client, including the
coercion of the raw path parameter: an unknown process-type string is
rejected with a 422 validation error before the handler body runs, and
the state is untouched. -/
def processFileEndpoint (s : Sys) (rawType : String)
    (task_id filename model_size : String) (options : PyDict) :
    Except HTTPError ProcessingResponse × Sys :=
  match parseProcessingType rawType with
  | Option.none =>
      (.error ⟨422, "Input should be transcription, translation or summarization"⟩, s)
  | some pt =>
      let r := process_file s pt task_id filename model_size options
      (.ok r.1, r.2)

/-- The dispatch inside the `try` block of `process_file_background`: the
three known process types call the corresponding service method; any
other string raises `ValueError`. -/
def dispatchProcess (svc : ProcessingService) (ora : Oracle) (n : Nat)
    (file_path process_type model_size : String) (options : PyDict) :
    Except String PyDict × Nat :=
  if process_type = "transcription" then
    transcribe svc ora n file_path model_size options
  else if process_type = "translation" then
    translate svc ora n file_path model_size options
  else if process_type = "summarization" then
    summarize svc ora n file_path model_size options
  else
    (.error ("Unsupported process type: " ++ process_type), n)

/-- `process_file_background`: run the dispatch; on a normal return mark
the task `completed` and attach the result, on any exception mark it
`failed` and attach the exception text (the `result` field is left
untouched in that case). -/
def process_file_background (svc : ProcessingService) (ora : Oracle)
    (n : Nat) (tasks : List (String × Task))
    (task_id file_path process_type model_size : String) (options : PyDict) :
    List (String × Task) × Nat :=
  match dispatchProcess svc ora n file_path process_type model_size options with
  | (.ok result, n') =>
      (aupdate tasks task_id
        (fun t => { t with status := "completed", result := some result }), n')
  | (.error e, n') =>
      (aupdate tasks task_id
        (fun t => { t with status := "failed", error := some e }), n')

/-- The `GET /process/...` polling handler `get_processing_result`:
404 for an unknown identifier, otherwise the current status together with
the result and error fields (absent fields read as `None`). -/
def get_processing_result (s : Sys) (task_id : String) :
    Except HTTPError ProcessingResult :=
  match alookup s.tasks task_id with
  | Option.none => .error ⟨404, "Task not found"⟩
  | some task => .ok ⟨task_id, task.status, task.result, task.error⟩

/-! ## Traces of the task subsystem

A trace interleaves client submissions, polls, and the deferred execution
of scheduled background jobs (the framework runs them once each, in
scheduling order, after the submitting response is sent).  Each `runJob`
carries the provider oracle governing the external calls of that run. -/

/-- One operation on the task subsystem. -/
inductive Op where
  | submit (process_type : ProcessingType)
      (task_id filename model_size : String) (options : PyDict)
  | runJob (ora : Oracle)
  | poll (task_id : String)

/-- Executing one operation.  Polling does not mutate the state;
running a job pops the oldest scheduled job and applies
`process_file_background` to it. -/
def exec (svc : ProcessingService) (s : Sys) : Op → Sys
  | .submit pt id filename model_size options =>
      (process_file s pt id filename model_size options).2
  | .runJob ora =>
      match s.pending with
      | [] => s
      | j :: rest =>
          ⟨(process_file_background svc ora 0 s.tasks
              j.task_id j.file_path j.process_type j.model_size j.options).1,
           rest⟩
  | .poll _ => s

/-- Executing a list of operations in order. -/
def execList (svc : ProcessingService) (s : Sys) (ops : List Op) : Sys :=
  ops.foldl (exec svc) s

/-- The task id generated by a submit operation, if any. -/
def submitId : Op → Option String
  | .submit _ id _ _ _ => some id
  | _ => Option.none

/-- The ids generated by the submissions of a trace. -/
def submitIds (ops : List Op) : List String :=
  ops.filterMap submitId

/-- Well-formedness of a trace: the generated identifiers are pairwise
distinct, as `uuid.uuid4()` guarantees. -/
def WF (ops : List Op) : Prop :=
  (submitIds ops).Nodup

/-- A terminal task status. -/
def isTerminal (st : String) : Bool :=
  st = "completed" || st = "failed"

/-! ## Image to text — `app/api/routes/image_to_text.py` and
`app/services/image_to_text.py`

Tuples are embedded as lists of values, so that the arity of Python
tuple unpacking can be stated; the OCR engine is an oracle over the
image bytes. -/

/-- `ImageToTextService.extract_text_from_image`: on OCR success the
method returns the pair `(text, 0.95)`; any exception is re-raised
wrapped in a fixed prefix. -/
def extract_text_from_image (ocr : List Nat → Except String String)
    (image_data : List Nat) : Except String (List PyVal) :=
  match ocr image_data with
  | .ok text => .ok [.str text, .num "0.95"]
  | .error e => .error ("Failed to extract text from image: " ++ e)

/-- Python unpacking of a tuple into three assignment targets: it raises
`ValueError` unless the tuple has exactly three items. -/
def unpack3 {α : Type} (xs : List α) : Except String (α × α × α) :=
  match xs with
  | [a, b, c] => .ok (a, b, c)
  | _ =>
      if xs.length < 3 then
        .error ("not enough values to unpack (expected 3, got "
          ++ toString xs.length ++ ")")
      else
        .error "too many values to unpack (expected 3)"

/-- The `ImageToTextResponse` schema as the route fills it. -/
structure ImageToTextResponse where
  text : PyVal
  confidence : PyVal
  explanation : PyVal
  audio_path : PyVal
deriving DecidableEq, Repr

/-- A value returned by the image route: either the response model or the
plain dictionary of the invalid-method branch. -/
inductive ImageRouteResult where
  | response (r : ImageToTextResponse)
  | dict (d : PyDict)
deriving DecidableEq, Repr

/-- The `POST /image-to-text` handler `convert_image_to_text`.  The
`tesseract` branch unpacks the value of `extract_text_from_image` into
the three names `text, confidence, audio_url`; the `gemini` branch
delegates to a separate vision service, abstracted here as its outcome;
the outer `except` re-raises every exception. -/
def convert_image_to_text (ocr : List Nat → Except String String)
    (geminiBranch : Except String ImageToTextResponse)
    (contents : List Nat) (method : String) :
    Except String ImageRouteResult :=
  if method = "tesseract" then
    match extract_text_from_image ocr contents with
    | .error e => .error e
    | .ok tup =>
        match unpack3 tup with
        | .error e => .error e
        | .ok (text, confidence, audio_url) =>
            .ok (.response
              ⟨text, confidence, .str "Text extracted using Tesseract OCR.", audio_url⟩)
  else if method = "gemini" then
    match geminiBranch with
    | .ok r => .ok (.response r)
    | .error e => .error e
  else
    .ok (.dict [("error", .str "Invalid method. Please choose tesseract or gemini.")])

/-! ## PDF converter — `app/api/routes/pdf_converter.py`,
`app/services/pdf_converter.py` and the `PdfToMarkdownResponse` schema -/

/-- One image of an OCR result page. -/
structure OcrImage where
  id : String
  image_base64 : String
deriving DecidableEq, Repr

/-- One page of the OCR response: its markdown and its images. -/
structure OcrPage where
  markdown : String
  images : List OcrImage
deriving DecidableEq, Repr

/-- `PdfConverterService._replace_images_in_markdown`: replace each image
placeholder with a base64 data URI. -/
def _replace_images_in_markdown (markdown_str : String)
    (images_dict : List (String × String)) : String :=
  images_dict.foldl
    (fun md kv =>
      md.replace ("![" ++ kv.1 ++ "](" ++ kv.1 ++ ")")
        ("![" ++ kv.1 ++ "](data:image/png;base64," ++ kv.2 ++ ")"))
    markdown_str

/-- `PdfConverterService._get_combined_markdown`: per-page markdown with
images substituted, joined by blank lines. -/
def _get_combined_markdown (pages : List OcrPage) : String :=
  String.intercalate "\n\n"
    (pages.map (fun page =>
      _replace_images_in_markdown page.markdown
        (page.images.map (fun img => (img.id, img.image_base64)))))

/-- `PdfConverterService.__init__` takes a required positional `api_key`;
calling the constructor without it raises `TypeError`. -/
def PdfConverterService.init : Option String → Except String String
  | some api_key => .ok api_key
  | Option.none =>
      .error "PdfConverterService.__init__() missing 1 required positional argument: api_key"

/-- `PdfConverterService.pdf_to_markdown`: the upload / signed-url / OCR
pipeline is abstracted as its outcome; any exception is re-raised wrapped
in a fixed prefix, and a successful OCR response is combined into one
markdown string. -/
def pdf_to_markdown (mistral : Except String (List OcrPage))
    (pdf_data : List Nat) : Except String String :=
  match mistral with
  | .ok pages => .ok (_get_combined_markdown pages)
  | .error e => .error ("Failed to convert PDF to Markdown: " ++ e)

/-- The `PdfToMarkdownResponse` schema: its only field, `response_dict`,
is required. -/
structure PdfToMarkdownResponse where
  response_dict : PyDict
deriving DecidableEq, Repr

/-- The `POST /pdf-to-markdown` handler `convert_pdf_to_markdown`.  It
constructs the service with no argument, so the constructor raises before
anything else happens; had execution continued, building
`PdfToMarkdownResponse(markdown=...)` would itself fail validation, the
schema requiring `response_dict` and having no `markdown` field. -/
def convert_pdf_to_markdown (mistral : Except String (List OcrPage))
    (contents : List Nat) : Except String PdfToMarkdownResponse :=
  match PdfConverterService.init Option.none with
  | .error e => .error e
  | .ok _ =>
      match pdf_to_markdown mistral contents with
      | .error e => .error e
      | .ok _markdown_text =>
          .error "1 validation error for PdfToMarkdownResponse: response_dict Field required"

/-! ## Association-list lemmas -/

theorem alookup_aset_self {α : Type} (d : List (String × α)) (k : String) (v : α) :
    alookup (aset d k v) k = some v := by
  induction d with
  | nil => simp [aset, alookup]
  | cons kv d ih =>
      obtain ⟨k', v'⟩ := kv
      by_cases h : k' = k
      · simp [aset, h, alookup]
      · simp [aset, h, alookup, ih]

theorem alookup_aset_ne {α : Type} (d : List (String × α)) (k k' : String) (v : α)
    (h : k' ≠ k) : alookup (aset d k v) k' = alookup d k' := by
  induction d with
  | nil => simp [aset, alookup, Ne.symm h]
  | cons kv d ih =>
      obtain ⟨k₀, v₀⟩ := kv
      by_cases h₀ : k₀ = k
      · subst h₀
        simp [aset, alookup, Ne.symm h]
      · simp only [aset, if_neg h₀]
        by_cases h₁ : k₀ = k'
        · simp [alookup, h₁]
        · simp [alookup, h₁, ih]

theorem mem_keys_aset {α : Type} (d : List (String × α)) (k k' : String) (v : α) :
    k' ∈ (aset d k v).map Prod.fst ↔ k' ∈ d.map Prod.fst ∨ k' = k := by
  induction d with
  | nil => simp [aset]
  | cons kv d ih =>
      obtain ⟨k₀, v₀⟩ := kv
      by_cases h₀ : k₀ = k
      · subst h₀
        simp [aset]
        tauto
      · simp [aset, h₀, ih]
        tauto

theorem nodup_keys_aset {α : Type} (d : List (String × α)) (k : String) (v : α)
    (h : (d.map Prod.fst).Nodup) : ((aset d k v).map Prod.fst).Nodup := by
  induction d with
  | nil => simp [aset]
  | cons kv d ih =>
      obtain ⟨k₀, v₀⟩ := kv
      simp only [List.map_cons, List.nodup_cons] at h
      by_cases h₀ : k₀ = k
      · subst h₀
        simpa [aset] using h
      · simp only [aset, if_neg h₀, List.map_cons, List.nodup_cons]
        refine ⟨fun hmem => ?_, ih h.2⟩
        rcases (mem_keys_aset d k k₀ v).mp hmem with hin | heq
        · exact h.1 hin
        · exact h₀ heq

theorem mem_keys_of_alookup {α : Type} (d : List (String × α)) (k : String) (v : α)
    (h : alookup d k = some v) : k ∈ d.map Prod.fst := by
  induction d with
  | nil => simp [alookup] at h
  | cons kv d ih =>
      obtain ⟨k₀, v₀⟩ := kv
      by_cases h₀ : k₀ = k
      · simp [h₀]
      · simp only [alookup, if_neg h₀] at h
        simp [ih h]

theorem alookup_aupdate_self {α : Type} (d : List (String × α)) (k : String)
    (f : α → α) : alookup (aupdate d k f) k = (alookup d k).map f := by
  induction d with
  | nil => simp [aupdate, alookup]
  | cons kv d ih =>
      obtain ⟨k₀, v₀⟩ := kv
      by_cases h₀ : k₀ = k
      · simp [aupdate, alookup, h₀]
      · simp [aupdate, alookup, h₀, ih]

theorem alookup_aupdate_ne {α : Type} (d : List (String × α)) (k k' : String)
    (f : α → α) (h : k' ≠ k) : alookup (aupdate d k f) k' = alookup d k' := by
  induction d with
  | nil => simp [aupdate, alookup]
  | cons kv d ih =>
      obtain ⟨k₀, v₀⟩ := kv
      by_cases h₀ : k₀ = k
      · subst h₀
        simp [aupdate, alookup, Ne.symm h, ih]
      · by_cases h₁ : k₀ = k'
        · subst h₁
          simp [aupdate, alookup, h₀]
        · simp [aupdate, alookup, h₀, h₁, ih]

theorem keys_aupdate {α : Type} (d : List (String × α)) (k : String) (f : α → α) :
    (aupdate d k f).map Prod.fst = d.map Prod.fst := by
  induction d with
  | nil => rfl
  | cons kv d ih =>
      obtain ⟨k₀, v₀⟩ := kv
      by_cases h₀ : k₀ = k <;> simp [aupdate, h₀, ih]

/-! ## The task-registry invariant

In every reachable state: registry keys are unique and were generated by
earlier submissions; pending jobs carry distinct identifiers; each
pending job points at a `processing` entry with no result and no error
attached; and every entry's status is one of the three states. -/

def Inv (used : List String) (s : Sys) : Prop :=
  (s.tasks.map Prod.fst).Nodup ∧
  (∀ k ∈ s.tasks.map Prod.fst, k ∈ used) ∧
  (s.pending.map Job.task_id).Nodup ∧
  (∀ j ∈ s.pending, ∃ t, alookup s.tasks j.task_id = some t ∧
      t.status = "processing" ∧ t.result = Option.none ∧ t.error = Option.none) ∧
  (∀ k t, alookup s.tasks k = some t →
      t.status = "processing" ∨ isTerminal t.status = true)

theorem inv_init : Inv [] Sys.init := by
  refine ⟨by simp [Sys.init], by simp [Sys.init], by simp [Sys.init],
    by simp [Sys.init], ?_⟩
  intro k t h
  simp [Sys.init, alookup] at h

/-- `process_file_background` only ever rewrites the entry under its own
task id, leaving the file path and process type alone and producing a
terminal status. -/
theorem process_file_background_spec (svc : ProcessingService) (ora : Oracle)
    (n : Nat) (tasks : List (String × Task))
    (task_id file_path process_type model_size : String) (options : PyDict) :
    ∃ f : Task → Task,
      (process_file_background svc ora n tasks task_id file_path process_type
          model_size options).1 = aupdate tasks task_id f ∧
      ∀ t, (f t).file_path = t.file_path ∧ (f t).process_type = t.process_type ∧
        isTerminal (f t).status = true := by
  rcases h : dispatchProcess svc ora n file_path process_type model_size options
    with ⟨outcome, n'⟩
  cases outcome with
  | ok r =>
      refine ⟨fun t => { t with status := "completed", result := some r }, ?_, ?_⟩
      · simp [process_file_background, h]
      · intro t; exact ⟨rfl, rfl, by simp [isTerminal]⟩
  | error e =>
      refine ⟨fun t => { t with status := "failed", error := some e }, ?_, ?_⟩
      · simp [process_file_background, h]
      · intro t; exact ⟨rfl, rfl, by simp [isTerminal]⟩

theorem exec_preserves_inv (svc : ProcessingService) (used : List String)
    (s : Sys) (op : Op) (hInv : Inv used s)
    (hfresh : ∀ i, submitId op = some i → i ∉ used) :
    Inv (used ++ (submitId op).toList) (exec svc s op) := by
  obtain ⟨hnk, hku, hnp, hpend, hdom⟩ := hInv
  cases op with
  | poll id =>
      simpa [exec, submitId] using ⟨hnk, hku, hnp, hpend, hdom⟩
  | submit pt id fname ms opts =>
      have hid : id ∉ used := hfresh id rfl
      have hpendid : ∀ j ∈ s.pending, j.task_id ≠ id := by
        intro j hj heq
        obtain ⟨t, hlt, -⟩ := hpend j hj
        exact hid (heq ▸ hku _ (mem_keys_of_alookup _ _ _ hlt))
      simp only [exec, process_file, submitId, Option.toList]
      refine ⟨nodup_keys_aset _ _ _ hnk, ?_, ?_, ?_, ?_⟩
      · intro k hk
        rcases (mem_keys_aset _ _ _ _).mp hk with hin | rfl
        · exact List.mem_append_left _ (hku k hin)
        · exact List.mem_append_right _ (by simp)
      · simp only [List.map_append]
        rw [List.nodup_append]
        refine ⟨hnp, by simp, ?_⟩
        intro x hx hy
        simp only [List.map_cons, List.map_nil, List.mem_singleton] at hy
        obtain ⟨j, hj, rfl⟩ := List.mem_map.mp hx
        exact hpendid j hj hy
      · intro j hj
        rcases List.mem_append.mp hj with hj | hj
        · obtain ⟨t, hlt, hst⟩ := hpend j hj
          exact ⟨t, by rwa [alookup_aset_ne _ _ _ _ (hpendid j hj)], hst⟩
        · simp only [List.mem_singleton] at hj
          subst hj
          exact ⟨_, alookup_aset_self _ _ _, rfl, rfl, rfl⟩
      · intro k t hk
        by_cases hke : k = id
        · subst hke
          rw [alookup_aset_self] at hk
          cases hk
          exact Or.inl rfl
        · rw [alookup_aset_ne _ _ _ _ hke] at hk
          exact hdom k t hk
  | runJob ora =>
      rcases hp : s.pending with - | ⟨j, rest⟩
      · simpa [exec, hp, submitId] using ⟨hnk, hku, hnp, hpend, hdom⟩
      · obtain ⟨f, hf, hfprop⟩ :=
          process_file_background_spec svc ora 0 s.tasks j.task_id j.file_path
            j.process_type j.model_size j.options
        rw [hp] at hnp hpend
        rw [List.map_cons, List.nodup_cons] at hnp
        have hjrest : ∀ j' ∈ rest, j'.task_id ≠ j.task_id := by
          intro j' hj' heq
          exact hnp.1 (heq ▸ List.mem_map.mpr ⟨j', hj', rfl⟩)
        simp only [exec, hp, submitId, Option.toList, List.append_nil, hf]
        refine ⟨by rwa [keys_aupdate], by rw [keys_aupdate]; exact hku, hnp.2, ?_, ?_⟩
        · intro j' hj'
          obtain ⟨t, hlt, hst⟩ := hpend j' (List.mem_cons_of_mem _ hj')
          exact ⟨t, by rwa [alookup_aupdate_ne _ _ _ _ (hjrest j' hj')], hst⟩
        · intro k t hk
          by_cases hke : k = j.task_id
          · rw [hke, alookup_aupdate_self] at hk
            rcases ho : alookup s.tasks j.task_id with - | t₀
            · rw [ho] at hk; cases hk
            · rw [ho] at hk
              simp only [Option.map] at hk
              cases hk
              exact Or.inr ((hfprop t₀).2.2)
          · rw [alookup_aupdate_ne _ _ _ _ hke] at hk
            exact hdom k t hk

theorem exec_preserves_terminal (svc : ProcessingService) (used : List String)
    (s : Sys) (op : Op) (hInv : Inv used s)
    (hfresh : ∀ i, submitId op = some i → i ∉ used)
    (k : String) (t : Task) (ht : alookup s.tasks k = some t)
    (hterm : isTerminal t.status = true) :
    alookup (exec svc s op).tasks k = some t := by
  obtain ⟨hnk, hku, hnp, hpend, hdom⟩ := hInv
  cases op with
  | poll id => exact ht
  | submit pt id fname ms opts =>
      have hid : id ∉ used := hfresh id rfl
      have hke : k ≠ id := by
        intro heq
        exact hid (heq ▸ hku _ (mem_keys_of_alookup _ _ _ ht))
      simp only [exec, process_file]
      rwa [alookup_aset_ne _ _ _ _ hke]
  | runJob ora =>
      rcases hp : s.pending with - | ⟨j, rest⟩
      · simpa [exec, hp] using ht
      · obtain ⟨f, hf, hfprop⟩ :=
          process_file_background_spec svc ora 0 s.tasks j.task_id j.file_path
            j.process_type j.model_size j.options
        have hke : k ≠ j.task_id := by
          intro heq
          obtain ⟨t₀, hlt, hst, -⟩ := hpend j (hp ▸ List.mem_cons_self j rest)
          rw [heq, hlt] at ht
          cases ht
          rw [hst] at hterm
          simp [isTerminal] at hterm
        simp only [exec, hp, hf]
        rwa [alookup_aupdate_ne _ _ _ _ hke]

theorem submitIds_cons (op : Op) (ops : List Op) :
    submitIds (op :: ops) = (submitId op).toList ++ submitIds ops := by
  rcases h : submitId op with - | i <;>
    simp [submitIds, List.filterMap_cons, h]

theorem submitIds_append (l₁ l₂ : List Op) :
    submitIds (l₁ ++ l₂) = submitIds l₁ ++ submitIds l₂ :=
  List.filterMap_append _ _ _

theorem execList_preserves (svc : ProcessingService) :
    ∀ (ops : List Op) (used : List String) (s : Sys), Inv used s →
    (∀ i ∈ submitIds ops, i ∉ used) → (submitIds ops).Nodup →
    Inv (used ++ submitIds ops) (execList svc s ops) ∧
    ∀ k t, alookup s.tasks k = some t → isTerminal t.status = true →
      alookup (execList svc s ops).tasks k = some t := by
  intro ops
  induction ops with
  | nil =>
      intro used s hInv _ _
      exact ⟨by simpa [submitIds] using hInv, fun k t h _ => h⟩
  | cons op ops ih =>
      intro used s hInv hfresh hnd
      rw [submitIds_cons] at hnd
      have hfresh₁ : ∀ i, submitId op = some i → i ∉ used := by
        intro i hi
        exact hfresh i (by simp [submitIds_cons, hi])
      have hstep := exec_preserves_inv svc used s op hInv hfresh₁
      have hfresh₂ : ∀ i ∈ submitIds ops, i ∉ used ++ (submitId op).toList := by
        intro i hi hmem
        rcases List.mem_append.mp hmem with h1 | h2
        · exact hfresh i (by simp [submitIds_cons]; exact Or.inr hi) h1
        · rcases ho : submitId op with - | i₀
          · rw [ho] at h2; simp at h2
          · rw [ho] at h2 hnd
            simp only [Option.toList] at h2 hnd
            rcases List.mem_singleton.mp h2 with rfl
            exact (List.nodup_cons.mp (by simpa using hnd)).1 hi
      have hnd₂ : (submitIds ops).Nodup := by
        rcases ho : submitId op with - | i₀
        · rw [ho] at hnd; simpa using hnd
        · rw [ho] at hnd
          exact (List.nodup_cons.mp (by simpa using hnd)).2
      have hrest := ih (used ++ (submitId op).toList) (exec svc s op) hstep
        hfresh₂ hnd₂
      constructor
      · rw [submitIds_cons, ← List.append_assoc]
        simpa [execList, List.foldl_cons] using hrest.1
      · intro k t hk ht
        have h1 := exec_preserves_terminal svc used s op hInv hfresh₁ k t hk ht
        simpa [execList, List.foldl_cons] using hrest.2 k t h1 ht

/-! ## Claim theorems -/

/-- Claim C1: every task enters the registry with status `processing` at
submission; the background runner moves it at most once to `completed` or
`failed`; no later operation of any well-formed trace (distinct generated
identifiers) changes an entry whose status is terminal — the entry is
frozen whole, every stored status is one of the three states, and every
poll after the terminal transition returns the same terminal status,
result and error. -/
theorem task_status_one_shot (svc : ProcessingService) (pre suf : List Op)
    (k : String) (t : Task)
    (hwf : WF (pre ++ suf))
    (ht : alookup (execList svc Sys.init pre).tasks k = some t)
    (hterm : isTerminal t.status = true) :
    alookup (execList svc Sys.init (pre ++ suf)).tasks k = some t ∧
    get_processing_result (execList svc Sys.init (pre ++ suf)) k =
      .ok ⟨k, t.status, t.result, t.error⟩ ∧
    (∀ k' t', alookup (execList svc Sys.init (pre ++ suf)).tasks k' = some t' →
      t'.status = "processing" ∨ isTerminal t'.status = true) ∧
    (∀ (s : Sys) (pt : ProcessingType) (id fname ms : String) (opts : PyDict),
      alookup (process_file s pt id fname ms opts).2.tasks id =
        some { status := "processing",
               file_path := "uploaded_" ++ pt.value ++ "/" ++ id ++ (splitext fname).2,
               process_type := pt.value }) := by
  unfold WF at hwf
  rw [submitIds_append, List.nodup_append] at hwf
  obtain ⟨h1, h2, hdisj⟩ := hwf
  have base := execList_preserves svc pre [] Sys.init inv_init (by simp) h1
  have hInv1 : Inv (submitIds pre) (execList svc Sys.init pre) := by
    simpa using base.1
  have hfresh : ∀ i ∈ submitIds suf, i ∉ submitIds pre := by
    intro i hi hmem
    exact hdisj hmem hi
  have hsplit : execList svc Sys.init (pre ++ suf) =
      execList svc (execList svc Sys.init pre) suf := by
    simp [execList, List.foldl_append]
  have main := execList_preserves svc suf (submitIds pre)
    (execList svc Sys.init pre) hInv1 hfresh h2
  have hkeep : alookup (execList svc Sys.init (pre ++ suf)).tasks k = some t := by
    rw [hsplit]; exact main.2 k t ht hterm
  refine ⟨hkeep, by simp [get_processing_result, hkeep], ?_, ?_⟩
  · intro k' t' hk'
    rw [hsplit] at hk'
    exact main.1.2.2.2.2 k' t' hk'
  · intro s pt id fname ms opts
    simp [process_file, alookup_aset_self]

/-- Concrete instance of the claim C1 theorem: a trace that submits,
fails in the background, then keeps polling and submitting, still polls
the same terminal status. -/
theorem task_status_one_shot_witness :
    get_processing_result (execList ⟨true⟩ Sys.init
      ([Op.submit .transcription "t1" "a.mp3" "base" [],
        Op.runJob (fun _ => Except.error "boom")] ++
       [Op.poll "t1", Op.submit .summarization "t2" "b.mp4" "base" []])) "t1" =
      .ok ⟨"t1", "failed", Option.none,
        some "Gemini transcription error: Gemini direct media processing error: boom"⟩ :=
  (task_status_one_shot ⟨true⟩
    [Op.submit .transcription "t1" "a.mp3" "base" [],
     Op.runJob (fun _ => Except.error "boom")]
    [Op.poll "t1", Op.submit .summarization "t2" "b.mp4" "base" []]
    "t1"
    ⟨"failed", "uploaded_transcription/t1.mp3", "transcription",
      Option.none, some "Gemini transcription error: Gemini direct media processing error: boom"⟩
    (by unfold WF; decide) (by decide) (by decide)).2.1

/-- Claim C4: when the processing call of a background run raises, the
runner marks the task `failed` and stores the exception text in the error
field, attaching no result; the submission response was fixed at submit
time and carries no failure information, so the failure is observable
only through polling. -/
theorem background_failure_semantics (svc : ProcessingService) (ora : Oracle)
    (n : Nat) (tasks : List (String × Task)) (id fp pt ms : String)
    (opts : PyDict) (t : Task) (e : String) (n' : Nat)
    (hlook : alookup tasks id = some t)
    (hdisp : dispatchProcess svc ora n fp pt ms opts = (.error e, n')) :
    alookup (process_file_background svc ora n tasks id fp pt ms opts).1 id =
      some { t with status := "failed", error := some e } ∧
    (t.result = Option.none →
      alookup (process_file_background svc ora n tasks id fp pt ms opts).1 id =
        some ⟨"failed", t.file_path, t.process_type, Option.none, some e⟩) ∧
    (∀ pending,
      get_processing_result
        ⟨(process_file_background svc ora n tasks id fp pt ms opts).1, pending⟩ id =
        .ok ⟨id, "failed", t.result, some e⟩) ∧
    (∀ (s : Sys) (pt₀ : ProcessingType) (id₀ fname ms₀ : String) (opts₀ : PyDict),
      (process_file s pt₀ id₀ fname ms₀ opts₀).1 =
        ⟨id₀, "File uploaded and " ++ pt₀.value ++ " task started",
         "uploaded_" ++ pt₀.value ++ "/" ++ id₀ ++ (splitext fname).2⟩) := by
  have h1 : (process_file_background svc ora n tasks id fp pt ms opts).1 =
      aupdate tasks id (fun t => { t with status := "failed", error := some e }) := by
    simp [process_file_background, hdisp]
  have h2 : alookup (process_file_background svc ora n tasks id fp pt ms opts).1 id =
      some { t with status := "failed", error := some e } := by
    rw [h1, alookup_aupdate_self, hlook]; rfl
  refine ⟨h2, ?_, ?_, ?_⟩
  · intro hres
    rw [h2]
    cases t
    simp only at hres
    subst hres
    rfl
  · intro pending
    simp [get_processing_result, h2]
  · intro s pt₀ id₀ fname ms₀ opts₀
    rfl

/-- Concrete instance of the claim C4 theorem: a failed transcription run
is polled as `failed` with the raised message and no result. -/
theorem background_failure_semantics_witness :
    get_processing_result
      ⟨(process_file_background ⟨true⟩ (fun _ => Except.error "boom") 0
          [("t1", ⟨"processing", "uploaded_transcription/t1.mp3", "transcription",
                   Option.none, Option.none⟩)]
          "t1" "uploaded_transcription/t1.mp3" "transcription" "base" []).1, []⟩
      "t1" =
      .ok ⟨"t1", "failed", Option.none,
        some "Gemini transcription error: Gemini direct media processing error: boom"⟩ :=
  (background_failure_semantics ⟨true⟩ (fun _ => Except.error "boom") 0
    [("t1", ⟨"processing", "uploaded_transcription/t1.mp3", "transcription",
             Option.none, Option.none⟩)]
    "t1" "uploaded_transcription/t1.mp3" "transcription" "base" []
    ⟨"processing", "uploaded_transcription/t1.mp3", "transcription",
     Option.none, Option.none⟩
    "Gemini transcription error: Gemini direct media processing error: boom" 1
    (by decide) rfl).2.2.1 []

/-- Claim C5: polling an identifier absent from the registry returns a
404 "Task not found" error — a handled condition, not a crash — and no
poll mutates the state; polling a present identifier returns the current
status together with the stored result and error fields. -/
theorem poll_lookup_semantics (s : Sys) (id : String) :
    (alookup s.tasks id = Option.none →
      get_processing_result s id = .error ⟨404, "Task not found"⟩) ∧
    (∀ t, alookup s.tasks id = some t →
      get_processing_result s id = .ok ⟨id, t.status, t.result, t.error⟩) ∧
    (∀ svc, exec svc s (.poll id) = s) := by
  refine ⟨?_, ?_, fun svc => rfl⟩
  · intro h; simp [get_processing_result, h]
  · intro t h; simp [get_processing_result, h]

/-- Concrete instance of the claim C5 theorem: an unknown identifier
yields 404, a known one its current record. -/
theorem poll_lookup_semantics_witness :
    get_processing_result Sys.init "zzz" = .error ⟨404, "Task not found"⟩ ∧
    get_processing_result
      ⟨[("t1", ⟨"completed", "f.mp3", "transcription", Option.none, Option.none⟩)], []⟩
      "t1" = .ok ⟨"t1", "completed", Option.none, Option.none⟩ :=
  ⟨(poll_lookup_semantics Sys.init "zzz").1 (by decide),
   (poll_lookup_semantics
      ⟨[("t1", ⟨"completed", "f.mp3", "transcription", Option.none, Option.none⟩)], []⟩
      "t1").2.1
     ⟨"completed", "f.mp3", "transcription", Option.none, Option.none⟩ (by decide)⟩

/-- Claim C2 (counterexample): submitting the unknown process-type string
"ocr" does not create any task — the request is rejected with a
validation error and the registry is left exactly as it was —
contradicting the claim that such a submission creates a task whose
terminal status becomes `failed`. -/
theorem submit_unknown_type_counterexample :
    processFileEndpoint Sys.init "ocr" "t1" "f.mp3" "base" [] =
      (.error ⟨422, "Input should be transcription, translation or summarization"⟩,
       Sys.init) ∧
    (processFileEndpoint Sys.init "ocr" "t1" "f.mp3" "base" []).2.tasks = [] :=
  ⟨rfl, rfl⟩

/-- Claim C2 (amended): a submission whose process-type string is not one
of the three known values is rejected at the boundary with a client
validation error before any task is created, the state being left
unchanged; the background runner, were it invoked directly with such a
string, would record the task as `failed` with the descriptive message
`Unsupported process type` and never as `completed`. -/
theorem submit_unknown_type_amended (s : Sys) (raw id fname ms : String)
    (opts : PyDict)
    (hraw : raw ∉ (["transcription", "translation", "summarization"] : List String)) :
    processFileEndpoint s raw id fname ms opts =
      (.error ⟨422, "Input should be transcription, translation or summarization"⟩,
       s) ∧
    (∀ (svc : ProcessingService) (ora : Oracle) (n : Nat)
       (tasks : List (String × Task)) (t : Task) (fp ms' : String) (opts' : PyDict),
      alookup tasks id = some t →
      ∃ t', alookup (process_file_background svc ora n tasks id fp raw ms' opts').1 id
          = some t' ∧
        t'.status = "failed" ∧
        t'.error = some ("Unsupported process type: " ++ raw) ∧
        t'.status ≠ "completed") := by
  have h1 : raw ≠ "transcription" := by intro h; exact hraw (by simp [h])
  have h2 : raw ≠ "translation" := by intro h; exact hraw (by simp [h])
  have h3 : raw ≠ "summarization" := by intro h; exact hraw (by simp [h])
  constructor
  · simp [processFileEndpoint, parseProcessingType, h1, h2, h3]
  · intro svc ora n tasks t fp ms' opts' hlook
    have hd : dispatchProcess svc ora n fp raw ms' opts' =
        (.error ("Unsupported process type: " ++ raw), n) := by
      simp [dispatchProcess, h1, h2, h3]
    have hu : (process_file_background svc ora n tasks id fp raw ms' opts').1 =
        aupdate tasks id
          (fun t => { t with
              status := "failed",
              error := some ("Unsupported process type: " ++ raw) }) := by
      simp [process_file_background, hd]
    refine ⟨{ t with
        status := "failed",
        error := some ("Unsupported process type: " ++ raw) }, ?_, rfl, rfl, by simp⟩
    rw [hu, alookup_aupdate_self, hlook]
    rfl

/-- Concrete instance of the claim C2 amended theorem at the unknown
process type "ocr". -/
theorem submit_unknown_type_amended_witness :
    processFileEndpoint Sys.init "ocr" "t9" "f.mp3" "base" [] =
      (.error ⟨422, "Input should be transcription, translation or summarization"⟩,
       Sys.init) ∧
    ∃ t', alookup (process_file_background ⟨true⟩ (fun _ => Except.ok "x") 0
        [("t9", ⟨"processing", "f.mp3", "ocr", Option.none, Option.none⟩)]
        "t9" "f.mp3" "ocr" "base" []).1 "t9" = some t' ∧
      t'.status = "failed" ∧
      t'.error = some "Unsupported process type: ocr" ∧
      t'.status ≠ "completed" :=
  ⟨(submit_unknown_type_amended Sys.init "ocr" "t9" "f.mp3" "base" []
      (by decide)).1,
   (submit_unknown_type_amended Sys.init "ocr" "t9" "f.mp3" "base" []
      (by decide)).2
     ⟨true⟩ (fun _ => Except.ok "x") 0
     [("t9", ⟨"processing", "f.mp3", "ocr", Option.none, Option.none⟩)]
     ⟨"processing", "f.mp3", "ocr", Option.none, Option.none⟩
     "f.mp3" "base" [] (by decide)⟩

/-- Claim C3 (counterexample): a transcription task on a file with the
unsupported extension `.txt` finishes `completed` with a result that has
no `transcript` field and consists only of an error message; and a
transcription of a supported file whose provider response is whitespace
finishes `completed` with an empty transcript — contradicting the claim
that a completed transcription always carries a non-empty transcript and
never only an error. -/
theorem transcription_completed_without_transcript :
    alookup (execList ⟨true⟩ Sys.init
        [Op.submit .transcription "t1" "notes.txt" "base" [],
         Op.runJob (fun _ => Except.ok "hello")]).tasks "t1" =
      some ⟨"completed", "uploaded_transcription/t1.txt", "transcription",
            some unsupportedFormatDict, Option.none⟩ ∧
    pyGet unsupportedFormatDict "transcript" = Option.none ∧
    pyHasKey unsupportedFormatDict "error" = true ∧
    alookup (execList ⟨true⟩ Sys.init
        [Op.submit .transcription "t2" "a.mp3" "base" [],
         Op.runJob (fun _ => Except.ok "   ")]).tasks "t2" =
      some ⟨"completed", "uploaded_transcription/t2.mp3", "transcription",
            some [("transcript", .str ""), ("segments", .emptylist),
                  ("language", .str "auto-detected"),
                  ("method", .str "gemini_direct")], Option.none⟩ :=
  ⟨by decide, by decide, by decide, by decide⟩

/-- A successful provider call inside `transcribe` yields a result
dictionary whose `transcript` field is the provider text stripped. -/
theorem transcribe_ok (svc : ProcessingService) (ora : Oracle) (n : Nat)
    (fp ms : String) (opts : PyDict) (txt : String)
    (hg : svc.geminiModel = true) (hs : _is_supported_file fp = true)
    (ho : ora n = .ok txt) :
    ∃ r : PyDict, transcribe svc ora n fp ms opts = (.ok r, n + 1) ∧
      pyGet r "transcript" = some (.str (pyStrip txt)) := by
  by_cases hsave : pyTruthy (pyGetD opts "save_transcript" (.bool false))
  · exact ⟨[("transcript", .str (pyStrip txt)), ("segments", .emptylist),
            ("language", pyGetD opts "language" (.str "auto-detected")),
            ("method", .str "gemini_direct"),
            ("transcript_path", .str ((splitext fp).1 ++ "_transcript.txt"))],
      by simp [transcribe, hg, hs, _process_with_gemini_direct, ho, hsave],
      by simp [pyGet]⟩
  · exact ⟨[("transcript", .str (pyStrip txt)), ("segments", .emptylist),
            ("language", pyGetD opts "language" (.str "auto-detected")),
            ("method", .str "gemini_direct")],
      by simp [transcribe, hg, hs, _process_with_gemini_direct, ho, hsave],
      by simp [pyGet]⟩

/-- Claim C3 (amended): a finished transcription run ends `completed`
with a result whose `transcript` field is the provider text stripped of
surrounding whitespace (possibly empty) when the file format is supported
and the provider call returns; ends `completed` with the format-error
dictionary — an error message and no transcript — when the format is
unsupported; and ends `failed` with an error string when the provider
call raises or the model is uninitialised. -/
theorem transcription_run_outcomes (svc : ProcessingService) (ora : Oracle)
    (n : Nat) (tasks : List (String × Task)) (id fp ms : String)
    (opts : PyDict) (t : Task)
    (hlook : alookup tasks id = some t) :
    (svc.geminiModel = true → _is_supported_file fp = true →
      ∀ txt, ora n = .ok txt →
      ∃ r, alookup (process_file_background svc ora n tasks id fp "transcription" ms opts).1 id
          = some { t with status := "completed", result := some r } ∧
        pyGet r "transcript" = some (.str (pyStrip txt))) ∧
    (svc.geminiModel = true → _is_supported_file fp = false →
      alookup (process_file_background svc ora n tasks id fp "transcription" ms opts).1 id
          = some { t with status := "completed", result := some unsupportedFormatDict } ∧
      pyGet unsupportedFormatDict "transcript" = Option.none) ∧
    (svc.geminiModel = true → _is_supported_file fp = true →
      ∀ e, ora n = .error e →
      alookup (process_file_background svc ora n tasks id fp "transcription" ms opts).1 id
          = some { t with
              status := "failed",
              error := some ("Gemini transcription error: Gemini direct media processing error: " ++ e) }) ∧
    (svc.geminiModel = false →
      alookup (process_file_background svc ora n tasks id fp "transcription" ms opts).1 id
          = some { t with
              status := "failed",
              error := some "Gemini model not initialized. Please provide project_id during initialization." }) := by
  refine ⟨?_, ?_, ?_, ?_⟩
  · intro hg hs txt ho
    obtain ⟨r, hr, hfield⟩ := transcribe_ok svc ora n fp ms opts txt hg hs ho
    have hd : dispatchProcess svc ora n fp "transcription" ms opts = (.ok r, n + 1) := by
      simp [dispatchProcess, hr]
    refine ⟨r, ?_, hfield⟩
    have hu : (process_file_background svc ora n tasks id fp "transcription" ms opts).1 =
        aupdate tasks id (fun t => { t with status := "completed", result := some r }) := by
      simp [process_file_background, hd]
    rw [hu, alookup_aupdate_self, hlook]; rfl
  · intro hg hs
    have hd : dispatchProcess svc ora n fp "transcription" ms opts =
        (.ok unsupportedFormatDict, n) := by
      simp [dispatchProcess, transcribe, hg, hs]
    have hu : (process_file_background svc ora n tasks id fp "transcription" ms opts).1 =
        aupdate tasks id
          (fun t => { t with status := "completed", result := some unsupportedFormatDict }) := by
      simp [process_file_background, hd]
    exact ⟨by rw [hu, alookup_aupdate_self, hlook]; rfl, by decide⟩
  · intro hg hs e ho
    have hd : dispatchProcess svc ora n fp "transcription" ms opts =
        (.error ("Gemini transcription error: Gemini direct media processing error: " ++ e),
         n + 1) := by
      simp [dispatchProcess, transcribe, hg, hs, _process_with_gemini_direct, ho]
      rw [← String.append_assoc]
      rfl
    have hu : (process_file_background svc ora n tasks id fp "transcription" ms opts).1 =
        aupdate tasks id
          (fun t => { t with
              status := "failed",
              error := some ("Gemini transcription error: Gemini direct media processing error: " ++ e) }) := by
      simp [process_file_background, hd]
    rw [hu, alookup_aupdate_self, hlook]; rfl
  · intro hg
    have hd : dispatchProcess svc ora n fp "transcription" ms opts =
        (.error "Gemini model not initialized. Please provide project_id during initialization.",
         n) := by
      simp [dispatchProcess, transcribe, hg]
    have hu : (process_file_background svc ora n tasks id fp "transcription" ms opts).1 =
        aupdate tasks id
          (fun t => { t with
              status := "failed",
              error := some "Gemini model not initialized. Please provide project_id during initialization." }) := by
      simp [process_file_background, hd]
    rw [hu, alookup_aupdate_self, hlook]; rfl

/-- Concrete instance of the claim C3 amended theorem: a supported file
with a successful provider call completes with the stripped transcript. -/
theorem transcription_run_outcomes_witness :
    ∃ r, alookup (process_file_background ⟨true⟩ (fun _ => Except.ok " hi there ") 0
        [("t1", ⟨"processing", "uploaded_transcription/t1.mp3", "transcription",
                 Option.none, Option.none⟩)]
        "t1" "uploaded_transcription/t1.mp3" "transcription" "base" []).1 "t1" =
      some ⟨"completed", "uploaded_transcription/t1.mp3", "transcription",
            some r, Option.none⟩ ∧
      pyGet r "transcript" = some (.str "hi there") :=
  (transcription_run_outcomes ⟨true⟩ (fun _ => Except.ok " hi there ") 0
    [("t1", ⟨"processing", "uploaded_transcription/t1.mp3", "transcription",
             Option.none, Option.none⟩)]
    "t1" "uploaded_transcription/t1.mp3" "base" []
    ⟨"processing", "uploaded_transcription/t1.mp3", "transcription",
     Option.none, Option.none⟩
    (by decide)).1 rfl (by decide) " hi there " rfl

/-- Claim C6 (code behaviour at the failing input): the tesseract branch
of `POST /image-to-text` never returns successfully for any upload — the
handler unpacks the two-element return value of
`extract_text_from_image` into three names, which raises `ValueError`
even when OCR succeeds; an OCR error is likewise re-raised. -/
theorem image_route_tesseract_never_succeeds
    (ocr : List Nat → Except String String)
    (geminiBranch : Except String ImageToTextResponse) (contents : List Nat) :
    (∀ txt, ocr contents = .ok txt →
      convert_image_to_text ocr geminiBranch contents "tesseract" =
        .error "not enough values to unpack (expected 3, got 2)") ∧
    (∀ e, ocr contents = .error e →
      convert_image_to_text ocr geminiBranch contents "tesseract" =
        .error ("Failed to extract text from image: " ++ e)) := by
  constructor
  · intro txt h
    simp [convert_image_to_text, extract_text_from_image, h, unpack3]
    decide
  · intro e h
    simp [convert_image_to_text, extract_text_from_image, h]

/-- Concrete instance of the claim C6 theorem: a one-byte upload whose
OCR would return text still ends in the unpacking `ValueError`. -/
theorem image_route_tesseract_never_succeeds_witness :
    convert_image_to_text (fun _ => Except.ok "hello")
      (Except.error "unused") [1] "tesseract" =
      .error "not enough values to unpack (expected 3, got 2)" :=
  (image_route_tesseract_never_succeeds (fun _ => Except.ok "hello")
    (Except.error "unused") [1]).1 "hello" rfl

/-- Claim C7 (code behaviour): every request to `POST /pdf-to-markdown`
raises — the handler constructs `PdfConverterService` without the
required `api_key` argument, so the constructor fails before the OCR
pipeline can run, whatever the upload and whatever the OCR service would
have answered. -/
theorem pdf_route_always_raises (mistral : Except String (List OcrPage))
    (contents : List Nat) :
    convert_pdf_to_markdown mistral contents =
      .error "PdfConverterService.__init__() missing 1 required positional argument: api_key" :=
  rfl

/-- Claim C9: spell-correcting the empty string returns an empty
corrected text (the input returned unchanged) and makes no provider
call. -/
theorem spell_correct_empty (provider : String → Except String String) :
    spellCorrectRoute provider "" = (.ok ⟨"", ""⟩, false) ∧
    correct_text provider "" = (.ok "", false) :=
  ⟨rfl, rfl⟩

/-- A string all of whose characters are Python whitespace strips to the
empty string. -/
theorem pyStrip_eq_empty (s : String)
    (h : ∀ c ∈ s.data, isPyWhitespace c = true) : pyStrip s = "" := by
  have h1 : s.data.dropWhile isPyWhitespace = [] :=
    List.dropWhile_eq_nil_iff.mpr h
  simp [pyStrip, h1]

/-- Claim C10: an input consisting only of whitespace characters is
returned verbatim — whitespace intact, not stripped — and the provider is
not called. -/
theorem spell_correct_whitespace (provider : String → Except String String)
    (text : String) (h : ∀ c ∈ text.data, isPyWhitespace c = true) :
    spellCorrectRoute provider text = (.ok ⟨text, text⟩, false) ∧
    correct_text provider text = (.ok text, false) := by
  have hs := pyStrip_eq_empty text h
  constructor <;> simp [spellCorrectRoute, correct_text, hs]

/-- Concrete instance of the claim C10 theorem at a tab-and-space
input. -/
theorem spell_correct_whitespace_witness :
    spellCorrectRoute (fun _ => Except.ok "ignored") " \t" =
      (.ok ⟨" \t", " \t"⟩, false) :=
  (spell_correct_whitespace (fun _ => Except.ok "ignored") " \t"
    (by decide)).1

/-- Claim C8 (counterexample): with default options, a summarization task
whose first provider call fails goes on to make two further provider
calls — the fallback transcription and summarization — ending at call
index 3; a single provider failure is not terminal for that task. -/
theorem summarize_fallback_counterexample :
    ((fun n => if n = 0 then Except.error "quota exceeded" else Except.ok "hello") :
        Oracle) 0 = Except.error "quota exceeded" ∧
    (summarize ⟨true⟩
      (fun n => if n = 0 then Except.error "quota exceeded" else Except.ok "hello")
      0 "uploaded_summarization/t2.mp3" "base" []).2 = 3 :=
  ⟨rfl, rfl⟩

/-- Claim C8 (amended): no individual provider call is retried and a
single provider failure is terminal for transcription and translation
runs and for the spell-correction endpoint — each consumes exactly one
call and raises — but the summarization path is the exception: when its
first (direct) provider attempt fails it falls back to a
transcribe-then-summarize pipeline, making at least one further provider
call. -/
theorem no_retry_except_summarize_fallback (svc : ProcessingService)
    (ora : Oracle) (n : Nat) (fp ms : String) (opts : PyDict) (e : String)
    (hg : svc.geminiModel = true) (hs : _is_supported_file fp = true)
    (ho : ora n = .error e) :
    transcribe svc ora n fp ms opts =
      (.error ("Gemini transcription error: "
        ++ ("Gemini direct media processing error: " ++ e)), n + 1) ∧
    translate svc ora n fp ms opts =
      (.error ("Gemini translation error: "
        ++ ("Gemini direct media processing error: " ++ e)), n + 1) ∧
    (∀ (provider : String → Except String String) (text err : String),
      pyStrip text ≠ "" →
      provider (spellCorrectPrompt text) = .error err →
      correct_text provider text =
        (.error ⟨500, "Gemini API error: " ++ err⟩, true)) ∧
    (pyGet opts "use_gemini_direct" = Option.none →
      n + 2 ≤ (summarize svc ora n fp ms opts).2) := by
  refine ⟨?_, ?_, ?_, ?_⟩
  · simp [transcribe, hg, hs, _process_with_gemini_direct, ho]
  · simp [translate, hg, hs, _process_with_gemini_direct, ho]
  · intro provider text err hne herr
    simp [correct_text, hne, herr]
  · intro hopt
    have hdflt : pyGetD opts "use_gemini_direct" (.bool true) = .bool true := by
      simp [pyGetD, hopt]
    have htr : pyTruthy (PyVal.bool true) = true := rfl
    rcases h2 : ora (n + 1) with e₂ | t₂
    · have hcount : (summarize svc ora n fp ms opts).2 = n + 1 + 1 := by
        simp [summarize, hdflt, htr, hg, _process_with_gemini_direct, ho,
          transcribe, hs, h2]
      omega
    · by_cases hsave : pyTruthy (pyGetD opts "save_transcript" (.bool false)) = true
      · rcases h3 : ora (n + 1 + 1) with e₃ | t₃ <;>
        · have hcount : (summarize svc ora n fp ms opts).2 = n + 1 + 1 + 1 := by
            simp [summarize, hdflt, htr, hg, _process_with_gemini_direct, ho,
              transcribe, hs, h2, hsave, pyHasKey, pyGet,
              _generate_summary_with_gemini, h3]
          omega
      · rcases h3 : ora (n + 1 + 1) with e₃ | t₃ <;>
        · have hcount : (summarize svc ora n fp ms opts).2 = n + 1 + 1 + 1 := by
            simp [summarize, hdflt, htr, hg, _process_with_gemini_direct, ho,
              transcribe, hs, h2, hsave, pyHasKey, pyGet,
              _generate_summary_with_gemini, h3]
          omega

/-- Concrete instance of the claim C8 amended theorem. -/
theorem no_retry_except_summarize_fallback_witness :
    transcribe ⟨true⟩ (fun _ => Except.error "quota") 0
        "uploaded_transcription/t1.mp3" "base" [] =
      (.error ("Gemini transcription error: "
        ++ ("Gemini direct media processing error: " ++ "quota")), 1) ∧
    2 ≤ (summarize ⟨true⟩ (fun _ => Except.error "quota") 0
        "uploaded_transcription/t1.mp3" "base" []).2 := by
  have h := no_retry_except_summarize_fallback ⟨true⟩
    (fun _ => Except.error "quota") 0 "uploaded_transcription/t1.mp3" "base"
    [] "quota" rfl (by decide) rfl
  exact ⟨h.1, h.2.2.2 rfl⟩

end Backend
